import Mathlib

/-!
Shallow embedding of `viptela_python/viptela.py`: the response-normalization
layer (`parse_http_success`, `parse_http_error`, `parse_response`), the HTTP
verb dispatchers (`_get`, `_put`, `_post`, `_upload`, `_delete`), `login` and
`get_device_by_type`, together with theorems about them.

Python exceptions are modelled with `Except`: a `.error` value is an exception
propagating out of the modelled function; `.ok` is a normal return.
-/

/-- JSON values as produced by Python's `json` module (numbers restricted to
integers, which suffices for the response shapes the claims mention). -/
inductive Json where
  | null
  | bool (b : Bool)
  | num (n : Int)
  | str (s : String)
  | arr (elems : List Json)
  | obj (fields : List (String × Json))

/-- The Python exceptions that can escape the modelled code:
`ValueError` (JSON decode failure, carrying its message), `KeyError`
(missing dict key), `TypeError` (indexing a non-dict with a string key)
and `AttributeError` (calling `.get` on a non-dict, or an attribute of
`None`). -/
inductive PyError where
  | valueError (msg : String)
  | keyError (key : String)
  | typeError
  | attributeError

/-- A Python value stored in a `Result` field: either a JSON-representable
value (dicts, lists, strings, ...) or an exception object (the
`error = e` assignment in `parse_http_error`). -/
inductive PyVal where
  | json (j : Json)
  | exc (e : PyError)

/-- Python truthiness (`bool(x)`) of a JSON value. -/
def Json.truthy : Json → Bool
  | .null => false
  | .bool b => b
  | .num n => decide (n ≠ 0)
  | .str s => decide (s ≠ "")
  | .arr elems => !elems.isEmpty
  | .obj fields => !fields.isEmpty

/-- First-match lookup among a dict's fields (JSON objects have unique
keys, so this is Python dict lookup). -/
def lookupField : List (String × Json) → String → Option Json
  | [], _ => none
  | (k, v) :: rest, key => if k = key then some v else lookupField rest key

/-- Python `d.get(key)`: `none` for a missing key; raises `AttributeError`
when the receiver is not a dict. -/
def Json.get : Json → String → Except PyError (Option Json)
  | .obj fields, key => .ok (lookupField fields key)
  | _, _ => .error .attributeError

/-- Python `d[key]`: raises `KeyError` for a missing key and `TypeError`
when the receiver is not a dict. -/
def Json.index : Json → String → Except PyError Json
  | .obj fields, key =>
      match lookupField fields key with
      | some v => .ok v
      | none => .error (.keyError key)
  | _, _ => .error .typeError

/-- Truthiness of a `.get` result (`None` is falsy). -/
def optTruthy : Option Json → Bool
  | some v => v.truthy
  | none => false

/-- `HTTP_SUCCESS_CODES` from the source. -/
def HTTP_SUCCESS_CODES : List (Nat × String) := [(200, "Success")]

/-- `HTTP_ERROR_CODES` from the source. -/
def HTTP_ERROR_CODES : List (Nat × String) :=
  [(400, "Bad Request"),
   (403, "Forbidden"),
   (404, "API Not found"),
   (406, "Not Acceptable Response"),
   (415, "Unsupported Media Type"),
   (500, "Internal Server Error")]

/-- First-match lookup in a status-code table (keys are unique, so this is
Python dict lookup). -/
def lookupCode : List (Nat × String) → Nat → Option String
  | [], _ => none
  | (c, p) :: rest, code => if c = code then some p else lookupCode rest code

/-- `HTTP_RESPONSE_CODES`: the union of the two tables (their key sets are
disjoint, so appending with first-match lookup models `dict.update`). -/
def HTTP_RESPONSE_CODES : List (Nat × String) := HTTP_SUCCESS_CODES ++ HTTP_ERROR_CODES

/-- `HTTP_RESPONSE_CODES[code]`: raises `KeyError` when absent. -/
def httpResponsePhrase (code : Nat) : Except PyError String :=
  match lookupCode HTTP_RESPONSE_CODES code with
  | some p => .ok p
  | none => .error (.keyError (toString code))

/-- A completed HTTP response as the normalizer sees it: the method of the
request that produced it (`response.request.method`), the status code, the
body text, and the body's JSON parse (`none` when the body is not valid
JSON, in which case `response.json()` raises `ValueError`). -/
structure Response where
  method : String
  status_code : Nat
  text : String
  jsonBody : Option Json

/-- `response.json()`. -/
def Response.json (r : Response) : Except PyError Json :=
  match r.jsonBody with
  | some j => .ok j
  | none => .error (.valueError "Expecting value: line 1 column 1 (char 0)")

/-- `response.ok` from the `requests` library: true iff `status_code < 400`. -/
def Response.respOk (r : Response) : Bool := decide (r.status_code < 400)

/-- The `Result` namedtuple. -/
structure Result where
  ok : Bool
  status_code : Nat
  error : PyVal
  reason : Json
  data : Json
  response : Response

/-- The GET branch of `parse_http_success` (lines 38-51): probe
`data` / `config` / `templateDefinition` by truthiness of `.get`, index the
first truthy one; otherwise empty dict with the no-data error. -/
def getBranch (r : Response) (reason : String) : Except PyError (Json × PyVal × Json) :=
  match r.json with
  | .error e => .error e
  | .ok j =>
    match j.get "data" with
    | .error e => .error e
    | .ok dOpt =>
      if optTruthy dOpt then
        match j.index "data" with
        | .error e => .error e
        | .ok v => .ok (.str reason, .json (.str ""), v)
      else
        match j.get "config" with
        | .error e => .error e
        | .ok cOpt =>
          if optTruthy cOpt then
            match j.index "config" with
            | .error e => .error e
            | .ok v => .ok (.str reason, .json (.str ""), v)
          else
            match j.get "templateDefinition" with
            | .error e => .error e
            | .ok tOpt =>
              if optTruthy tOpt then
                match j.index "templateDefinition" with
                | .error e => .error e
                | .ok v => .ok (.str reason, .json (.str ""), v)
              else
                .ok (.str reason, .json (.str "No data received from device"), .obj [])

/-- The non-GET, non-empty-body branch of `parse_http_success`
(lines 56-64): probe `id` then `data`, else the raw body text. -/
def postBranch (r : Response) (reason : String) : Except PyError (Json × PyVal × Json) :=
  match r.json with
  | .error e => .error e
  | .ok j =>
    match j.get "id" with
    | .error e => .error e
    | .ok iOpt =>
      if optTruthy iOpt then
        match j.index "id" with
        | .error e => .error e
        | .ok v => .ok (.str reason, .json (.str ""), v)
      else
        match j.get "data" with
        | .error e => .error e
        | .ok dOpt =>
          if optTruthy dOpt then
            match j.index "data" with
            | .error e => .error e
            | .ok v => .ok (.str reason, .json (.str ""), v)
          else
            .ok (.str reason, .json (.str ""), .str r.text)

/-- The `(reason, error, data)` locals computed by `parse_http_success`.
Every branch begins with the `HTTP_RESPONSE_CODES[status_code]` lookup, so
it is hoisted (condition tests have no side effects, so the raise order is
unchanged). -/
def successTriple (r : Response) : Except PyError (Json × PyVal × Json) :=
  match httpResponsePhrase r.status_code with
  | .error e => .error e
  | .ok reason =>
    if r.method = "GET" then getBranch r reason
    else if r.text = "" then .ok (.str reason, .json (.str ""), .str r.text)
    else postBranch r reason

/-- `parse_http_success` (lines 32-74). -/
def parse_http_success (r : Response) : Except PyError Result :=
  match successTriple r with
  | .error e => .error e
  | .ok (reason, err, dat) =>
      .ok { ok := r.respOk, status_code := r.status_code,
            error := err, reason := reason, data := dat, response := r }

/-- The body of the `try` block of `parse_http_error` (lines 84-86):
`response.json()['error']['details']` and
`response.json()['error']['message']` (the second `json()` call returns
the same parse, so it is shared). -/
def errorDetail (r : Response) : Except PyError (Json × Json) :=
  match r.json with
  | .error e => .error e
  | .ok j =>
    match j.index "error" with
    | .error e => .error e
    | .ok errObj =>
      match errObj.index "details" with
      | .error e => .error e
      | .ok details =>
        match errObj.index "message" with
        | .error e => .error e
        | .ok message => .ok (details, message)

/-- `parse_http_error` (lines 77-100): `except ValueError as e` catches only
`ValueError`; `KeyError` / `TypeError` propagate. -/
def parse_http_error (r : Response) : Except PyError Result :=
  match errorDetail r with
  | .ok (details, message) =>
      .ok { ok := r.respOk, status_code := r.status_code,
            error := .json message, reason := details, data := .obj [], response := r }
  | .error (.valueError m) =>
      match httpResponsePhrase r.status_code with
      | .error e => .error e
      | .ok phrase =>
          .ok { ok := r.respOk, status_code := r.status_code,
                error := .exc (.valueError m), reason := .str phrase,
                data := .obj [], response := r }
  | .error e => .error e

/-- `parse_response` (lines 103-113): dispatch on the status-code tables;
falls off the end (returns `None`) for unrecognized codes. -/
def parse_response (r : Response) : Except PyError (Option Result) :=
  if (lookupCode HTTP_SUCCESS_CODES r.status_code).isSome then
    match parse_http_success r with
    | .error e => .error e
    | .ok res => .ok (some res)
  else if (lookupCode HTTP_ERROR_CODES r.status_code).isSome then
    match parse_http_error r with
    | .error e => .error e
    | .ok res => .ok (some res)
  else
    .ok none

/-- One HTTP request as handed to the underlying `requests` session:
method, url, headers, form/body data, and whether a multipart file
payload is attached. -/
structure HttpCall where
  method : String
  url : String
  headers : List (String × String)
  data : Json
  files : Bool

/-- The authenticated `requests` session, abstracted as the response the
server produces for each request. -/
abbrev Session := HttpCall → Response

/-- The default headers shared by `_get`, `_put`, `_post` and `_delete`. -/
def defaultHeaders : List (String × String) :=
  [("Connection", "keep-alive"), ("Content-Type", "application/json")]

namespace Viptela

/-- `Viptela._get` (lines 120-133): one `session.get`, fed to
`parse_response`. The first component records the HTTP calls issued. -/
def _get (session : Session) (url : String)
    (headers : Option (List (String × String))) (timeout : Nat) :
    List HttpCall × Except PyError (Option Result) :=
  let _t := timeout
  let h := headers.getD defaultHeaders
  let call : HttpCall := { method := "GET", url := url, headers := h,
                           data := .obj [], files := false }
  ([call], parse_response (session call))

/-- `Viptela._put` (lines 135-153). -/
def _put (session : Session) (url : String)
    (headers : Option (List (String × String))) (data : Option Json) (timeout : Nat) :
    List HttpCall × Except PyError (Option Result) :=
  let _t := timeout
  let h := headers.getD defaultHeaders
  let d := data.getD (.obj [])
  let call : HttpCall := { method := "PUT", url := url, headers := h,
                           data := d, files := false }
  ([call], parse_response (session call))

/-- `Viptela._post` (lines 155-173). -/
def _post (session : Session) (url : String)
    (headers : Option (List (String × String))) (data : Option Json) (timeout : Nat) :
    List HttpCall × Except PyError (Option Result) :=
  let _t := timeout
  let h := headers.getD defaultHeaders
  let d := data.getD (.obj [])
  let call : HttpCall := { method := "POST", url := url, headers := h,
                           data := d, files := false }
  ([call], parse_response (session call))

/-- `Viptela._upload` (lines 175-193): `session.post` with `files` but no
`data` (the defaulted `data` local is never passed on). -/
def _upload (session : Session) (url : String)
    (headers : Option (List (String × String))) (data : Option Json) (timeout : Nat) :
    List HttpCall × Except PyError (Option Result) :=
  let _t := timeout
  let h := headers.getD [("Accept-Encoding", "gzip")]
  let _d := data.getD (.obj [])
  let call : HttpCall := { method := "POST", url := url, headers := h,
                           data := .obj [], files := true }
  ([call], parse_response (session call))

/-- `Viptela._delete` (lines 195-213): defaults its locals and then `pass`:
no request is issued and `None` is returned (second component `none`,
distinguished from a returned `Result`). -/
def _delete (session : Session) (url : String)
    (headers : Option (List (String × String))) (data : Option Json) (timeout : Nat) :
    List HttpCall × Option (Except PyError (Option Result)) :=
  let _s := session
  let _u := url
  let _t := timeout
  let _h := headers.getD defaultHeaders
  let _d := data.getD (.obj [])
  ([], none)

/-- Exceptions that can escape `Viptela.login`: the two library error kinds
from `viptela_python.exceptions`, or an uncaught Python exception from the
normalizer (`except ConnectionError` catches nothing else). -/
inductive LoginError where
  | loginTimeout (msg : String)
  | loginCredentials (msg : String)
  | uncaught (e : PyError)

/-- Python `s.startswith(p)`. -/
def pyStartsWith (s p : String) : Bool := p.data.isPrefixOf s.data

/-- `Viptela.login` (lines 254-273). `postResult` is the outcome of the
`self._post` to `{base_url}/j_security_check`: `none` when `requests`
raises `ConnectionError` (caught and re-raised as `LoginTimeoutError`),
otherwise the server's response, which `_post` feeds to `parse_response`.
A `parse_response` exception propagates; a `None` from `parse_response`
makes `login_result.response` raise `AttributeError`; otherwise the
`<html>` heuristic decides between `LoginCredentialsError` and returning
the login `Result`. -/
def login (postResult : Option Response) (vmanage_server : String) :
    Except LoginError Result :=
  match postResult with
  | none => .error (.loginTimeout ("Could not connect to " ++ vmanage_server))
  | some resp =>
      match parse_response resp with
      | .error e => .error (.uncaught e)
      | .ok none => .error (.uncaught .attributeError)
      | .ok (some login_result) =>
          if pyStartsWith login_result.response.text "<html>" then
            .error (.loginCredentials "Could not login to device, check user credentials")
          else
            .ok login_result

/-- `Viptela.get_device_by_type` (lines 395-404): validate the device type
(raise `ValueError` before any HTTP call), then `_get` the device list. -/
def get_device_by_type (session : Session) (base_url : String) (device_type : String) :
    List HttpCall × Except PyError (Option Result) :=
  if device_type ∉ ["vedges", "controllers"] then
    ([], .error (.valueError ("Invalid device type: " ++ device_type)))
  else
    Viptela._get session (base_url ++ "/system/device/" ++ device_type) none 10

end Viptela

/-! Concrete inputs used by counterexamples and witnesses. -/

/-- A 200 GET response with body `{"data": 1}`. -/
def w1resp : Response :=
  { method := "GET", status_code := 200, text := "\x7b\"data\": 1\x7d",
    jsonBody := some (.obj [("data", .num 1)]) }

/-- The `Result` the normalizer produces for `w1resp`. -/
def w1res : Result :=
  { ok := true, status_code := 200, error := .json (.str ""),
    reason := .str "Success", data := .num 1, response := w1resp }

/-- A 200 GET response whose body `{"data": []}` carries the key `data`
with a falsy (empty-list) value. -/
def c2resp : Response :=
  { method := "GET", status_code := 200, text := "\x7b\"data\": []\x7d",
    jsonBody := some (.obj [("data", .arr [])]) }

/-- A 200 GET response with body `{"data": [1]}` (truthy `data`). -/
def w2resp : Response :=
  { method := "GET", status_code := 200, text := "\x7b\"data\": [1]\x7d",
    jsonBody := some (.obj [("data", .arr [.num 1])]) }

/-- A 200 GET response whose body is not valid JSON. -/
def c3getResp : Response :=
  { method := "GET", status_code := 200, text := "ok", jsonBody := none }

/-- A 500 response whose JSON body lacks the `error` key. -/
def c3errResp : Response :=
  { method := "GET", status_code := 500,
    text := "\x7b\"status\": \"fail\"\x7d",
    jsonBody := some (.obj [("status", .str "fail")]) }

/-- A 404 response with the structured error body
`{"error": {"details": "no such endpoint", "message": "not found"}}`. -/
def w4resp : Response :=
  { method := "GET", status_code := 404,
    text := "\x7b\"error\": \x7b\"details\": \"no such endpoint\", \"message\": \"not found\"\x7d\x7d",
    jsonBody := some (.obj [("error",
      .obj [("details", .str "no such endpoint"), ("message", .str "not found")])]) }

/-- A 404 response whose body is not valid JSON. -/
def w5resp : Response :=
  { method := "GET", status_code := 404, text := "<h1>Not Found</h1>", jsonBody := none }

/-- A 200 GET response whose JSON body has none of the keys `data`,
`config`, `templateDefinition`. -/
def w6resp : Response :=
  { method := "GET", status_code := 200, text := "\x7b\"other\": 1\x7d",
    jsonBody := some (.obj [("other", .num 1)]) }

/-- A login response: HTTP 200 whose body is the backend's HTML login page
(not valid JSON), as returned on bad credentials. -/
def c7okResp : Response :=
  { method := "POST", status_code := 200,
    text := "<html><head></head><body>login page</body></html>", jsonBody := none }

/-- A login response: HTTP 403 with an HTML (non-JSON) body. -/
def c7errResp : Response :=
  { method := "POST", status_code := 403,
    text := "<html><head></head><body>denied</body></html>", jsonBody := none }

/-- A server that answers every request with `w1resp`. -/
def wSession : Session := fun _ => w1resp

/-- A response whose status (503) is in neither status-code table. -/
def w10resp : Response :=
  { method := "GET", status_code := 503, text := "Service Unavailable", jsonBody := none }

/-! Helper lemmas. -/

theorem succ_isSome_eq (c : Nat)
    (h : (lookupCode HTTP_SUCCESS_CODES c).isSome = true) : c = 200 := by
  simp only [HTTP_SUCCESS_CODES, lookupCode] at h
  split at h
  · omega
  · simp at h

theorem err_isSome_cases (c : Nat)
    (h : (lookupCode HTTP_ERROR_CODES c).isSome = true) :
    c = 400 ∨ c = 403 ∨ c = 404 ∨ c = 406 ∨ c = 415 ∨ c = 500 := by
  simp only [HTTP_ERROR_CODES, lookupCode] at h
  repeat' split at h
  all_goals first | omega | simp at h

theorem parse_http_success_fields (r : Response) (res : Result)
    (h : parse_http_success r = Except.ok res) :
    res.ok = r.respOk ∧ res.status_code = r.status_code ∧ res.response = r := by
  unfold parse_http_success at h
  cases hs : successTriple r with
  | error e => rw [hs] at h; simp at h
  | ok p =>
      rw [hs] at h
      obtain ⟨reason, err, dat⟩ := p
      simp only [Except.ok.injEq] at h
      subst h
      exact ⟨rfl, rfl, rfl⟩

theorem parse_http_error_fields (r : Response) (res : Result)
    (h : parse_http_error r = Except.ok res) :
    res.ok = r.respOk ∧ res.status_code = r.status_code ∧ res.response = r := by
  unfold parse_http_error at h
  cases hd : errorDetail r with
  | ok p =>
      rw [hd] at h
      obtain ⟨dts, msg⟩ := p
      simp only [Except.ok.injEq] at h
      subst h
      exact ⟨rfl, rfl, rfl⟩
  | error e =>
      rw [hd] at h
      cases e with
      | valueError m =>
          cases hp : httpResponsePhrase r.status_code with
          | error e2 => rw [hp] at h; simp at h
          | ok phrase =>
              rw [hp] at h
              simp only [Except.ok.injEq] at h
              subst h
              exact ⟨rfl, rfl, rfl⟩
      | keyError k => simp at h
      | typeError => simp at h
      | attributeError => simp at h

theorem parse_response_fields (r : Response) (res : Result)
    (h : parse_response r = Except.ok (some res)) :
    res.ok = r.respOk ∧ res.status_code = r.status_code ∧ res.response = r := by
  unfold parse_response at h
  split at h
  · cases hp : parse_http_success r with
    | error e => rw [hp] at h; simp at h
    | ok res2 =>
        rw [hp] at h
        simp only [Except.ok.injEq, Option.some.injEq] at h
        subst h
        exact parse_http_success_fields r res2 hp
  · split at h
    · cases hp : parse_http_error r with
      | error e => rw [hp] at h; simp at h
      | ok res2 =>
          rw [hp] at h
          simp only [Except.ok.injEq, Option.some.injEq] at h
          subst h
          exact parse_http_error_fields r res2 hp
    · simp at h

theorem parse_response_some_classified (r : Response) (res : Result)
    (h : parse_response r = Except.ok (some res)) :
    (lookupCode HTTP_SUCCESS_CODES r.status_code).isSome = true ∨
    (lookupCode HTTP_ERROR_CODES r.status_code).isSome = true := by
  unfold parse_response at h
  split at h
  · left; assumption
  · split at h
    · right; assumption
    · simp at h

/-- Claim C1: for every response whose status code `parse_response`
classifies (200 or one of 400/403/404/406/415/500), the returned `Result`
has `ok = true` iff the status code is 200; every error-set status yields
`ok = false`. -/
theorem C1_ok_iff_success (r : Response) (res : Result)
    (h : parse_response r = Except.ok (some res)) :
    (res.ok = true ↔ r.status_code = 200) ∧
    ((lookupCode HTTP_ERROR_CODES r.status_code).isSome = true → res.ok = false) := by
  have hf := parse_response_fields r res h
  rcases parse_response_some_classified r res h with hs | he
  · have h200 := succ_isSome_eq _ hs
    constructor
    · rw [hf.1, Response.respOk, h200]
      simp
    · intro herr
      rw [h200] at herr
      simp [HTTP_ERROR_CODES, lookupCode] at herr
  · have h6 := err_isSome_cases _ he
    have hok : res.ok = false := by
      rw [hf.1, Response.respOk]
      rcases h6 with h'|h'|h'|h'|h'|h' <;> rw [h'] <;> simp
    constructor
    · rw [hok]
      constructor
      · intro hcontra; cases hcontra
      · intro h200; omega
    · intro _; exact hok

/-- Witness for C1 at a concrete 200 GET response. -/
theorem C1_ok_iff_success_witness :
    (w1res.ok = true ↔ w1resp.status_code = 200) ∧
    ((lookupCode HTTP_ERROR_CODES w1resp.status_code).isSome = true → w1res.ok = false) :=
  C1_ok_iff_success w1resp w1res rfl

theorem index_of_get_some (j x : Json) (k : String)
    (h : j.get k = Except.ok (some x)) : j.index k = Except.ok x := by
  cases j <;> simp [Json.get] at h
  simp [Json.index, h]

/-- Claim C2, as stated, is false: for the 200 GET response with body
`{"data": []}` (so `X = []`), truthiness probing skips the falsy value and
the `Result` carries the empty dict, not `X`, together with the no-data
error. -/
theorem C2_counterexample :
    parse_response c2resp = Except.ok (some
      { ok := true, status_code := 200,
        error := .json (.str "No data received from device"),
        reason := .str "Success", data := .obj [], response := c2resp }) ∧
    Json.obj [] ≠ Json.arr [] :=
  ⟨rfl, fun h => Json.noConfusion h⟩

/-- Claim C2 (amended): for every 200 GET response whose JSON body carries
the key `data` with a *truthy* value `x`, the `Result` has `ok = true` and
`data = x`. -/
theorem C2_truthy_data (r : Response) (j x : Json)
    (hm : r.method = "GET") (hs : r.status_code = 200)
    (hj : r.jsonBody = some j)
    (hx : j.get "data" = Except.ok (some x))
    (ht : x.truthy = true) :
    parse_response r = Except.ok (some
      { ok := true, status_code := r.status_code, error := .json (.str ""),
        reason := .str "Success", data := x, response := r }) := by
  have hidx := index_of_get_some j x "data" hx
  simp [parse_response, hs, HTTP_SUCCESS_CODES, HTTP_ERROR_CODES, lookupCode,
    parse_http_success, successTriple, httpResponsePhrase, HTTP_RESPONSE_CODES,
    hm, getBranch, Response.json, hj, hx, hidx, optTruthy, ht, Response.respOk]

/-- Witness for the amended C2 at a concrete response with a truthy
`data` value. -/
theorem C2_truthy_data_witness :
    parse_response w2resp = Except.ok (some
      { ok := true, status_code := w2resp.status_code,
        error := .json (.str ""), reason := .str "Success",
        data := .arr [.num 1], response := w2resp }) :=
  C2_truthy_data w2resp (.obj [("data", .arr [.num 1])]) (.arr [.num 1])
    rfl rfl rfl rfl rfl

/-- Claim C3 fails on the code: `parse_http_success` calls
`response.json()` with no exception handler, so a 200 GET response whose
body is not JSON propagates `ValueError`; and `parse_http_error` catches
only `ValueError`, so an error-status JSON body without the `error` key
propagates `KeyError`. Neither classified response yields a `Result`. -/
theorem C3_normalizer_raises :
    parse_response c3getResp =
      Except.error (PyError.valueError "Expecting value: line 1 column 1 (char 0)") ∧
    parse_response c3errResp = Except.error (PyError.keyError "error") :=
  ⟨rfl, rfl⟩

theorem lookupCode_append (xs ys : List (Nat × String)) (c : Nat)
    (h : lookupCode xs c = none) :
    lookupCode (xs ++ ys) c = lookupCode ys c := by
  induction xs with
  | nil => rfl
  | cons p rest ih =>
      obtain ⟨k, v⟩ := p
      by_cases hk : k = c
      · simp [lookupCode, hk] at h
      · simp only [List.cons_append, lookupCode, if_neg hk] at h ⊢
        exact ih h

theorem err_code_not_success (c : Nat)
    (h : (lookupCode HTTP_ERROR_CODES c).isSome = true) :
    lookupCode HTTP_SUCCESS_CODES c = none := by
  rcases err_isSome_cases c h with h'|h'|h'|h'|h'|h' <;> rw [h'] <;> rfl

theorem err_code_not_ok (r : Response)
    (h : (lookupCode HTTP_ERROR_CODES r.status_code).isSome = true) :
    r.respOk = false := by
  rw [Response.respOk]
  rcases err_isSome_cases _ h with h'|h'|h'|h'|h'|h' <;> rw [h'] <;> simp

/-- Claim C4: for every error-set response whose body parses as JSON of
shape `{"error": {"details": D, "message": M}}`, the `Result` has
`ok = false`, `reason = D` and `error = M`. -/
theorem C4_structured_error (r : Response) (j errObj dts msg : Json)
    (hs : (lookupCode HTTP_ERROR_CODES r.status_code).isSome = true)
    (hj : r.jsonBody = some j)
    (he : j.index "error" = Except.ok errObj)
    (hd : errObj.index "details" = Except.ok dts)
    (hm : errObj.index "message" = Except.ok msg) :
    parse_response r = Except.ok (some
      { ok := false, status_code := r.status_code, error := .json msg,
        reason := dts, data := .obj [], response := r }) := by
  have hnotsucc := err_code_not_success _ hs
  have hok := err_code_not_ok r hs
  simp [parse_response, hnotsucc, hs, parse_http_error, errorDetail,
    Response.json, hj, he, hd, hm, hok]

/-- Witness for C4 at a concrete 404 response with a structured error
body. -/
theorem C4_structured_error_witness :
    parse_response w4resp = Except.ok (some
      { ok := false, status_code := w4resp.status_code,
        error := .json (.str "not found"), reason := .str "no such endpoint",
        data := .obj [], response := w4resp }) :=
  C4_structured_error w4resp
    (.obj [("error", .obj [("details", .str "no such endpoint"),
                           ("message", .str "not found")])])
    (.obj [("details", .str "no such endpoint"), ("message", .str "not found")])
    (.str "no such endpoint") (.str "not found")
    rfl rfl rfl rfl rfl

/-- Claim C5: for every error-set response whose body is not valid JSON,
the `Result` has `ok = false`, `reason` equal to the phrase-table entry for
the status code, `error` holding the JSON parse failure, and `data` the
empty dict. -/
theorem C5_unparsed_error (r : Response) (phrase : String)
    (hs : lookupCode HTTP_ERROR_CODES r.status_code = some phrase)
    (hj : r.jsonBody = none) :
    parse_response r = Except.ok (some
      { ok := false, status_code := r.status_code,
        error := .exc (.valueError "Expecting value: line 1 column 1 (char 0)"),
        reason := .str phrase, data := .obj [], response := r }) := by
  have hs' : (lookupCode HTTP_ERROR_CODES r.status_code).isSome = true := by
    rw [hs]; rfl
  have hnotsucc := err_code_not_success _ hs'
  have hok := err_code_not_ok r hs'
  have hphrase : httpResponsePhrase r.status_code = Except.ok phrase := by
    rw [httpResponsePhrase, HTTP_RESPONSE_CODES, lookupCode_append _ _ _ hnotsucc, hs]
  simp [parse_response, hnotsucc, hs', parse_http_error, errorDetail,
    Response.json, hj, hphrase, hok]

/-- Witness for C5 at a concrete 404 response with a non-JSON body:
`reason` is the fixed phrase `API Not found`. -/
theorem C5_unparsed_error_witness :
    parse_response w5resp = Except.ok (some
      { ok := false, status_code := w5resp.status_code,
        error := .exc (.valueError "Expecting value: line 1 column 1 (char 0)"),
        reason := .str "API Not found", data := .obj [], response := w5resp }) :=
  C5_unparsed_error w5resp "API Not found" rfl rfl

/-- Claim C6: for every 200 GET response whose JSON body has none of the
keys `data`, `config`, `templateDefinition`, the `Result` has `ok = true`
(purely status-derived), `data` the empty dict, and the non-empty
`No data received from device` error string. -/
theorem C6_no_data_success (r : Response) (j : Json)
    (hm : r.method = "GET") (hs : r.status_code = 200)
    (hj : r.jsonBody = some j)
    (hd : j.get "data" = Except.ok none)
    (hc : j.get "config" = Except.ok none)
    (ht : j.get "templateDefinition" = Except.ok none) :
    parse_response r = Except.ok (some
      { ok := true, status_code := r.status_code,
        error := .json (.str "No data received from device"),
        reason := .str "Success", data := .obj [], response := r }) ∧
    "No data received from device" ≠ "" := by
  constructor
  · simp [parse_response, hs, HTTP_SUCCESS_CODES, HTTP_ERROR_CODES, lookupCode,
      parse_http_success, successTriple, httpResponsePhrase, HTTP_RESPONSE_CODES,
      hm, getBranch, Response.json, hj, hd, hc, ht, optTruthy, Response.respOk]
  · decide

/-- Witness for C6 at a concrete 200 GET response whose body has none of
the three payload keys. -/
theorem C6_no_data_success_witness :
    parse_response w6resp = Except.ok (some
      { ok := true, status_code := w6resp.status_code,
        error := .json (.str "No data received from device"),
        reason := .str "Success", data := .obj [], response := w6resp }) ∧
    "No data received from device" ≠ "" :=
  C6_no_data_success w6resp (.obj [("other", .num 1)]) rfl rfl rfl rfl rfl rfl

/-- Claim C7 fails on the code: for a login response with HTTP status 200
whose body is the backend's HTML page (so not valid JSON),
`parse_http_success` raises the JSON-decode `ValueError` inside `_post`
before `login` ever reaches its `<html>` check, so `LoginCredentialsError`
is *not* raised; the heuristic only fires when the normalizer survives,
e.g. for an error-status HTML response. -/
theorem C7_login_html_raises :
    Viptela.login (some c7okResp) "vmanage" =
      Except.error (.uncaught (.valueError "Expecting value: line 1 column 1 (char 0)")) ∧
    Viptela.login (some c7errResp) "vmanage" =
      Except.error (.loginCredentials "Could not login to device, check user credentials") :=
  ⟨rfl, rfl⟩

/-- Claim C8: `get_device_by_type` accepts exactly `vedges` and
`controllers`; any other argument raises `ValueError` with no HTTP call
issued (empty call list), while the two accepted values proceed to the
single `_get`. -/
theorem C8_device_type_validation :
    (∀ (s : Session) (b dt : String), dt ∉ ["vedges", "controllers"] →
        Viptela.get_device_by_type s b dt =
          ([], Except.error (PyError.valueError ("Invalid device type: " ++ dt)))) ∧
    (∀ (s : Session) (b : String),
        Viptela.get_device_by_type s b "vedges" =
          Viptela._get s (b ++ "/system/device/" ++ "vedges") none 10 ∧
        Viptela.get_device_by_type s b "controllers" =
          Viptela._get s (b ++ "/system/device/" ++ "controllers") none 10) := by
  constructor
  · intro s b dt hdt
    simp [Viptela.get_device_by_type, hdt]
  · intro s b
    exact ⟨rfl, rfl⟩

/-- Witness for C8: `foo` is rejected before any network call. -/
theorem C8_device_type_validation_witness :
    Viptela.get_device_by_type wSession "https://vmanage:8443/dataservice" "foo" =
      ([], Except.error (PyError.valueError ("Invalid device type: " ++ "foo"))) :=
  C8_device_type_validation.1 wSession "https://vmanage:8443/dataservice" "foo" (by decide)

/-- Claim C9: `_delete` is a stub: for every input it issues no HTTP call
and returns `None`; each of the four other dispatchers issues exactly one
call and returns `parse_response` of the server's answer to it. -/
theorem C9_delete_stub :
    (∀ (s : Session) (url : String) (hdrs : Option (List (String × String)))
        (d : Option Json) (t : Nat),
        Viptela._delete s url hdrs d t = ([], none)) ∧
    (∀ (s : Session) (url : String) (hdrs : Option (List (String × String))) (t : Nat),
        ∃ c : HttpCall, Viptela._get s url hdrs t = ([c], parse_response (s c))) ∧
    (∀ (s : Session) (url : String) (hdrs : Option (List (String × String)))
        (d : Option Json) (t : Nat),
        ∃ c : HttpCall, Viptela._put s url hdrs d t = ([c], parse_response (s c))) ∧
    (∀ (s : Session) (url : String) (hdrs : Option (List (String × String)))
        (d : Option Json) (t : Nat),
        ∃ c : HttpCall, Viptela._post s url hdrs d t = ([c], parse_response (s c))) ∧
    (∀ (s : Session) (url : String) (hdrs : Option (List (String × String)))
        (d : Option Json) (t : Nat),
        ∃ c : HttpCall, Viptela._upload s url hdrs d t = ([c], parse_response (s c))) :=
  ⟨fun _ _ _ _ _ => rfl,
   fun _ _ _ _ => ⟨_, rfl⟩,
   fun _ _ _ _ _ => ⟨_, rfl⟩,
   fun _ _ _ _ _ => ⟨_, rfl⟩,
   fun _ _ _ _ _ => ⟨_, rfl⟩⟩

/-- Claim C10: a response whose status is in neither status-code table
makes `parse_response` return `None`, and a dispatcher caller then
receives `None` in place of a `Result`. -/
theorem C10_unclassified_none (r : Response)
    (h1 : lookupCode HTTP_SUCCESS_CODES r.status_code = none)
    (h2 : lookupCode HTTP_ERROR_CODES r.status_code = none) :
    parse_response r = Except.ok none ∧
    (∀ (s : Session) (url : String) (hdrs : Option (List (String × String))) (t : Nat),
        (∀ c : HttpCall, s c = r) →
        (Viptela._get s url hdrs t).2 = Except.ok none) := by
  have hp : parse_response r = Except.ok none := by
    simp [parse_response, h1, h2]
  exact ⟨hp, fun s url hdrs t hs => by simp [Viptela._get, hs, hp]⟩

/-- Witness for C10 at a concrete 503 response. -/
theorem C10_unclassified_none_witness :
    parse_response w10resp = Except.ok none :=
  (C10_unclassified_none w10resp rfl rfl).1
